import Mathlib

/-!
Verification development for the Landlord control-plane service
(redis-landlord-srv, `src/main.go`).

The service assigns tenants ports from a bounded pool kept in a Redis
coordination store, invokes an external provisioning tool, and answers
instructions arriving over pub/sub.  This file gives a shallow embedding of
the allocation script, the provisioning-error classification, and the
instruction handlers, and proves properties about them.

Modelling conventions:

* Redis sets that hold port numbers are modelled as `List Nat` used as
  sets (`SADD` is `List.insert`, which prepends only when absent; `SREM`
  is `List.erase`; `SDIFFSTORE` is a membership filter).  Every member the
  program ever writes is the decimal numeral of a natural number
  (`prepareDb` inserts `portBase + i` with a positive base, `getFreePort`
  re-inserts members of that set), so members are represented by the
  naturals they denote.  All properties proved below are insensitive to
  the order of these lists.
* The `ZINTERSTORE`/`ZRANGE` pair in `getFreePort` turns the scratch set
  into a sorted set in which every member has score 1; `ZRANGE k 0 0`
  therefore yields the member whose string is smallest in byte-wise
  lexicographic order, modelled by the `memLt` comparison on the decimal
  numerals' character lists and the `zrangeHead` selection function.
* `redis.call` raises a Lua error when handed a `nil` argument
  ("Lua redis lib command arguments must be strings or integers"); the
  script in `getFreePort` performs `SADD` on the `ZRANGE` result *before*
  testing it for `nil`, so an empty pool aborts the script with that error
  instead of reaching the `return 0` branch.  Script failures, and every
  other store failure, surface in Go as a non-nil error that the code
  turns into a panic; panics are modelled as the `Except.error` branch
  carrying the panic text.
* Go panics recovered by `recover()` convert to their message string in
  both recovery blocks of the program (`case error`/`case string`), so a
  panic value is modelled as just its message.
* The provisioning tool is an external collaborator; its behaviour is an
  input (`Env.tool`).  A run either succeeds (exit 0), exits with a
  non-zero status `n` (Go error text "exit status n"), or fails to
  execute at all (arbitrary error text).
* Each call path dials its own store connection; `dial` panics when the
  connection or AUTH fails.  The environment records whether the handler
  body's dial and the response publisher's dial fail, and the panic text a
  failed dial produces.
-/

namespace Landlord

/-- Byte-wise lexicographic strict order on character lists, as used by a
Redis sorted set to order members that share a score (characters compare by
code point, which for the ASCII numerals produced by `Nat.repr` agrees with
byte order; a strict prefix sorts first). -/
def memLt : List Char → List Char → Bool
  | [], [] => false
  | [], _ :: _ => true
  | _ :: _, [] => false
  | a :: as, b :: bs => if a = b then memLt as bs else decide (a.toNat < b.toNat)

/-- Strict order on port numbers induced by `memLt` on their decimal
representations: the order in which `ZRANGE` ranks the members of the
score-1 sorted set built by `ZINTERSTORE` from the scratch set. -/
def portLt (m n : Nat) : Bool :=
  memLt (Nat.repr m).data (Nat.repr n).data

/-- Fold of `portLt` selecting the least element starting from `m`. -/
def pickMinAux (m : Nat) (l : List Nat) : Nat :=
  l.foldl (fun acc x => if portLt x acc then x else acc) m

/-- Rank-0 member of the sorted set built from the member list `l`
(`ZRANGE k 0 0`): the member least in `portLt`, `none` when the set is
empty.  The minimality lemmas below characterise the result independently
of the order of `l`. -/
def zrangeHead (l : List Nat) : Option Nat :=
  match l with
  | [] => none
  | a :: as => some (pickMinAux a as)

/-- The `SDIFFSTORE` step of the allocation script:
`available = possible \ occupied`. -/
def availablePorts (possible occupied : List Nat) : List Nat :=
  possible.filter (fun x => decide (x ∉ occupied))

/-- Error text Redis raises when a Lua script passes a non-string,
non-integer value (such as `nil`) to `redis.call`. -/
def luaTypeErrMsg : String :=
  "Lua redis lib command arguments must be strings or integers"

/-- The allocation script of `getFreePort` (src/main.go lines 165-175),
run as one atomic transaction: `SDIFFSTORE` computes `available =
possible \ occupied`; `ZINTERSTORE`/`ZRANGE` pick the lexicographically
least member; `SADD` marks it occupied.  When `available` is empty the
`ZRANGE` result is `nil` and the unconditional `SADD` aborts the script
with the Lua type error, so the `return 0` branch of the script is never
reached.  On success the script returns the picked port together with the
updated occupied set. -/
def getFreePortScript (possible occupied : List Nat) :
    Except String (Nat × List Nat) :=
  match zrangeHead (availablePorts possible occupied) with
  | none => .error luaTypeErrMsg
  | some p => .ok (p, occupied.insert p)

/-- State of the coordination store that the embedded code reads or
writes: the port pool sets, the tenant membership set, and the
`tenant:<id>:port` bindings (modelled as a partial map; the program only
ever stores decimal numerals there). -/
structure Store where
  possible : List Nat
  occupied : List Nat
  tenants : List String
  bindings : String → Option Nat

/-- Outcome of one provisioning-tool run (src/main.go `executeManagerOp`):
exit 0, a non-zero exit status `n` whose Go error text is
"exit status n", or a failure to execute carrying arbitrary error text.
The captured output is only logged and is not modelled. -/
inductive ToolResult
  | success
  | exitErr (code : Nat)
  | execErr (msg : String)
deriving DecidableEq

/-- The Go error text `executeManagerOp` returns, `none` on success. -/
def toolErrMsg : ToolResult → Option String
  | .success => none
  | .exitErr n => some ("exit status " ++ Nat.repr n)
  | .execErr m => some m

/-- A provisioning-tool invocation: operation, id, extra arguments. -/
abbrev ToolCall := String × String × List String

/-- External behaviour a single instruction's handling depends on: the
tool's responses, whether the store dial inside the handler body fails,
whether the store dial inside `dispatchResponse` fails, and the panic text
a failed `dial` produces ("Dialling error: ..." or "AUTH error: ...",
depending on the underlying network error). -/
structure Env where
  tool : String → String → List String → ToolResult
  handlerDialFails : Bool
  publishDialFails : Bool
  dialErrMsg : String

/-- Decoded instruction (src/main.go lines 39-43). -/
structure Instruction where
  ReplyTo : String
  Op : String
  Id : String
deriving DecidableEq

/-- Response shape without a port (src/main.go lines 45-49). -/
structure PlainResponse where
  Id : String
  Status : String
  Error : String
deriving DecidableEq

/-- Response shape with a port (src/main.go lines 51-56). -/
structure SetupResponse where
  Id : String
  Status : String
  Error : String
  Port : Nat
deriving DecidableEq

/-- Either response shape, as published by `dispatchResponse`. -/
inductive Response
  | plain (r : PlainResponse)
  | setup (r : SetupResponse)
deriving DecidableEq

/-- Classified tool failure (src/main.go lines 30-33). -/
structure ManagerError where
  ExitCode : Nat
  Message : String
deriving DecidableEq

/-- Static exit-code table `managerErrors` (src/main.go lines 61-69). -/
def managerErrors (n : Nat) : Option String :=
  match n with
  | 1 => some "Invalid command."
  | 2 => some "Invalid instance id."
  | 3 => some "Invalid port."
  | 4 => some "Sudo required."
  | 5 => some "Already installed"
  | 6 => some "Landlord not installed correctly."
  | 7 => some "Instance already exists."
  | 8 => some "Instance not enabled."
  | _ => none

/-- Consume the expected prefix of a character list, yielding the
remainder; `none` when the list does not start with the prefix. -/
def dropPrefixChars : List Char → List Char → Option (List Char)
  | [], s => some s
  | _ :: _, [] => none
  | p :: ps, c :: cs => if c = p then dropPrefixChars ps cs else none

/-- Numeric value of a digit list. -/
def digitsToNat (ds : List Char) : Nat :=
  ds.foldl (fun acc c => 10 * acc + (c.toNat - 48)) 0

/-- The regular expression `errRe` (src/main.go line 60),
`exit status ([0-9]+)` anchored at both ends, combined with
`strconv.Atoi` on the captured digits.  Naturals are unbounded here, so
the `Atoi` overflow branch of `parseManagerError` ("Invalid exit status")
has no counterpart; real exit statuses are single bytes. -/
def parseExitStatus (s : String) : Option Nat :=
  match dropPrefixChars "exit status ".data s.data with
  | none => none
  | some [] => none
  | some ds => if ds.all Char.isDigit then some (digitsToNat ds) else none

/-- Classification of a tool error text (src/main.go `parseManagerError`,
lines 228-248). -/
def parseManagerError (err : String) : ManagerError :=
  match parseExitStatus err with
  | none => ⟨0, "Unknown error (" ++ err ++ ")."⟩
  | some n =>
      match managerErrors n with
      | some msg => ⟨n, msg⟩
      | none => ⟨n, "Unknown exit status (" ++ Nat.repr n ++ ")"⟩

/-- The `idRe` check (src/main.go line 59): the id is a non-empty run of
underscores, hyphens, ASCII letters and digits. -/
def idChar (c : Char) : Bool :=
  c = '_' || c = '-' || c.isAlpha || c.isDigit

/-- Whether `idRe.MatchString` accepts the id. -/
def idOk (s : String) : Bool :=
  match s.data with
  | [] => false
  | l => l.all idChar

/-- The message `getFreePort` panics with when the allocation script
fails (src/main.go line 182; `log.Panic` concatenates its operands). -/
def fetchFreePortFailMsg (e : String) : String :=
  "Unable to fetch a free port: " ++ e

/-- The message `getPort` panics with when the binding key is absent
(src/main.go line 203): `GET` yields `nil` and `redis.Int` fails with
redigo's `ErrNil` text. -/
def getPortFailMsg (id : String) : String :=
  "Unable to get port for " ++ id ++ ": redigo: nil returned"

/-- Error the fatal pool-exhaustion branch of `setupInstance` panics with
(src/main.go line 279). -/
def noFreePortsMsg : String :=
  "No free ports. Increase MaxTenants, or set up a new Landlord server."

/-- The `releasePort` store update (src/main.go lines 188-197): `SREM` the
port from the occupied set, a no-op for a non-positive port (the Go guard
is `port <= 0`; ports are naturals here, so the guard is `port = 0`). -/
def releasePort (st : Store) (port : Nat) : Store :=
  if port = 0 then st else { st with occupied := st.occupied.erase port }

/-- The `getPort` registry read (src/main.go lines 199-207): `GET
tenant:<id>:port`; a missing key makes `redis.Int` fail and the function
panic with `getPortFailMsg`. -/
def getPort (st : Store) (id : String) : Except String Nat :=
  match st.bindings id with
  | some p => .ok p
  | none => .error (getPortFailMsg id)

/-- Result of `setupInstance`: the outer `Except` is a panic that escapes
the function (only the initial `dial`, which runs before the deferred
recovery is installed), the inner one the `(rport, err)` pair after the
deferred recovery converted any later panic into `err`. -/
structure SetupOut where
  result : Except String (Except String Nat)
  store : Store
  calls : List ToolCall

/-- The `setupInstance` handler (src/main.go lines 250-290): dial, then
under a deferred recovery that releases the speculative port and converts
a panic into the returned error: allocate a port, invoke the tool, and on
failure classify it — exit code 7 releases the port and falls back to the
registry binding; any other failure is fatal, surfacing `noFreePortsMsg`
when no port had been obtained and the classified message otherwise.  In
the fallback branch a failing registry read panics after the port was
already released, so the recovery's `releasePort` erases it a second time
(a no-op). -/
def setupInstance (env : Env) (st : Store) (id : String) : SetupOut :=
  if env.handlerDialFails then ⟨.error env.dialErrMsg, st, []⟩
  else
    match getFreePortScript st.possible st.occupied with
    | .error e => ⟨.ok (.error (fetchFreePortFailMsg e)), st, []⟩
    | .ok (p, occ) =>
        let st1 : Store := { st with occupied := occ }
        match toolErrMsg (env.tool "setup" id [Nat.repr p]) with
        | none => ⟨.ok (.ok p), st1, [("setup", id, [Nat.repr p])]⟩
        | some m =>
            let merr := parseManagerError m
            if merr.ExitCode = 7 then
              match getPort (releasePort st1 p) id with
              | .ok q => ⟨.ok (.ok q), releasePort st1 p, [("setup", id, [Nat.repr p])]⟩
              | .error pm =>
                  ⟨.ok (.error pm), releasePort (releasePort st1 p) p,
                    [("setup", id, [Nat.repr p])]⟩
            else if p = 0 then
              ⟨.ok (.error noFreePortsMsg), st1, [("setup", id, [Nat.repr p])]⟩
            else
              ⟨.ok (.error merr.Message), releasePort st1 p,
                [("setup", id, [Nat.repr p])]⟩

/-- Result of `deleteInstance`: outer `Except` is an escaping panic (the
`dial`; the function installs no recovery of its own), the inner value the
returned error, if any. -/
structure DeleteOut where
  result : Except String (Option String)
  calls : List ToolCall

/-- The `deleteInstance` handler (src/main.go lines 292-306): dial, invoke
the tool with operation "delete"; the error text "exit status 9" maps to
"Instance does not exist.", any other error is returned verbatim. -/
def deleteInstance (env : Env) (id : String) : DeleteOut :=
  if env.handlerDialFails then ⟨.error env.dialErrMsg, []⟩
  else
    match toolErrMsg (env.tool "delete" id []) with
    | none => ⟨.ok none, [("delete", id, [])]⟩
    | some m =>
        ⟨.ok (some (if m = "exit status 9" then "Instance does not exist." else m)),
          [("delete", id, [])]⟩

/-- The `getExistingPort` handler (src/main.go lines 308-332): dial
(before the deferred recovery is installed), then read the registry under
a recovery that converts the `getPort` panic into the returned error. -/
def getExistingPort (env : Env) (st : Store) (id : String) :
    Except String (Except String Nat) :=
  if env.handlerDialFails then .error env.dialErrMsg
  else .ok (getPort st id)

/-- One `dispatchResponse` call (src/main.go lines 334-341): dial a fresh
connection and publish the response on the channel derived from the
recipient.  A failing dial panics; the `PUBLISH` error itself is ignored
by the code.  `none` models the panic. -/
def dispatchResponse (env : Env) (recipient : String) (rsp : Response) :
    Option (String × Response) :=
  if env.publishDialFails then none
  else some ("landlord.response." ++ recipient, rsp)

/-- Observable outcome of handling one decoded instruction: the messages
published, the resulting store, the tool invocations made, and whether an
unrecovered panic escaped the handler goroutine (which terminates the Go
process). -/
structure HandleOut where
  published : List (String × Response)
  store : Store
  calls : List ToolCall
  crashed : Bool

/-- Publishing a response from the body of `handleInstruction`.  When the
publish dial panics, the deferred boundary recovery catches that panic and
calls `dispatchResponse` again, whose dial panics in turn inside the
deferred function; that second panic is unrecovered, so the goroutine and
with it the process die with nothing published. -/
def finish (env : Env) (replyTo : String) (rsp : Response) (st : Store)
    (calls : List ToolCall) : HandleOut :=
  match dispatchResponse env replyTo rsp with
  | some pub => ⟨[pub], st, calls, false⟩
  | none => ⟨[], st, calls, true⟩

/-- The deferred recovery at the boundary of `handleInstruction`
(src/main.go lines 354-369): a panic with message `m` becomes a
`PlainResponse` with empty `Id`, status ERROR and `m` as the error,
published to the instruction's reply destination; a failing publish dial
panics unrecovered and kills the process. -/
def boundary (env : Env) (replyTo m : String) (st : Store)
    (calls : List ToolCall) : HandleOut :=
  match dispatchResponse env replyTo (.plain ⟨"", "ERROR", m⟩) with
  | some pub => ⟨[pub], st, calls, false⟩
  | none => ⟨[], st, calls, true⟩

/-- Dispatch on the outcome of `setupInstance` (src/main.go lines
377-389): an escaping panic goes to the boundary; otherwise the
`SetupResponse` starts as OK with the instruction's id and a returned
error flips it to ERROR, leaving the port at its zero value. -/
def handleSetupResult (env : Env) (replyTo id : String) (s : SetupOut) :
    HandleOut :=
  match s.result with
  | .error pm => boundary env replyTo pm s.store s.calls
  | .ok (.error em) => finish env replyTo (.setup ⟨id, "ERROR", em, 0⟩) s.store s.calls
  | .ok (.ok p) => finish env replyTo (.setup ⟨id, "OK", "", p⟩) s.store s.calls

/-- Dispatch on the outcome of `deleteInstance` (src/main.go lines
391-399); the delete path never mutates the store. -/
def handleDeleteResult (env : Env) (replyTo id : String) (st : Store)
    (d : DeleteOut) : HandleOut :=
  match d.result with
  | .error pm => boundary env replyTo pm st d.calls
  | .ok none => finish env replyTo (.plain ⟨id, "OK", ""⟩) st d.calls
  | .ok (some m) => finish env replyTo (.plain ⟨id, "ERROR", m⟩) st d.calls

/-- Dispatch on the outcome of `getExistingPort` (src/main.go lines
401-412); the response reuses the `SetupResponse` shape. -/
def handleGetPortResult (env : Env) (replyTo id : String) (st : Store)
    (g : Except String (Except String Nat)) : HandleOut :=
  match g with
  | .error pm => boundary env replyTo pm st []
  | .ok (.ok q) => finish env replyTo (.setup ⟨id, "OK", "", q⟩) st []
  | .ok (.error m) => finish env replyTo (.setup ⟨id, "ERROR", m, 0⟩) st []

/-- The per-instruction handler `handleInstruction` (src/main.go lines
353-421): validate the id (an invalid id panics straight into the
boundary), then switch on the operation; an unknown operation answers
with a `PlainResponse` whose `Id` is left at its zero value. -/
def handleInstruction (env : Env) (st : Store) (instr : Instruction) :
    HandleOut :=
  if idOk instr.Id = false then
    boundary env instr.ReplyTo "Invalid id." st []
  else if instr.Op = "Setup" then
    handleSetupResult env instr.ReplyTo instr.Id (setupInstance env st instr.Id)
  else if instr.Op = "Delete" then
    handleDeleteResult env instr.ReplyTo instr.Id st (deleteInstance env instr.Id)
  else if instr.Op = "GetPort" then
    handleGetPortResult env instr.ReplyTo instr.Id st (getExistingPort env st instr.Id)
  else
    finish env instr.ReplyTo (.plain ⟨"", "ERROR", "Unknown operation."⟩) st []

/-- A store whose single possible port is already occupied: the pool is
exhausted. -/
def stExhausted : Store := ⟨[6381], [6381], [], fun _ => none⟩

/-- A fresh store with one free port and an empty registry. -/
def stFresh : Store := ⟨[6381], [], [], fun _ => none⟩

/-- A store with one free port and the registry pre-seeded with the
binding t1 to 7001, mirroring the Setup-fallback scenario of the spec. -/
def stSeeded : Store :=
  ⟨[6381], [], ["t1"], fun id => if id = "t1" then some 7001 else none⟩

/-- Environment in which every tool invocation succeeds and the store is
reachable. -/
def envToolOk : Env :=
  ⟨fun _ _ _ => .success, false, false, "Dialling error: connection refused"⟩

/-- Environment in which every tool invocation exits with status 1. -/
def envTool1 : Env :=
  ⟨fun _ _ _ => .exitErr 1, false, false, "Dialling error: connection refused"⟩

/-- Environment in which every tool invocation exits with status 7
("instance already exists"). -/
def envTool7 : Env :=
  ⟨fun _ _ _ => .exitErr 7, false, false, "Dialling error: connection refused"⟩

/-- Environment in which every tool invocation exits with status 9
("instance does not exist"). -/
def envTool9 : Env :=
  ⟨fun _ _ _ => .exitErr 9, false, false, "Dialling error: connection refused"⟩

/-- Environment in which the tool succeeds but every `dispatchResponse`
dial fails. -/
def envPubFail : Env :=
  ⟨fun _ _ _ => .success, false, true, "Dialling error: connection refused"⟩

/-- A Setup instruction for tenant t1. -/
def instrSetupT1 : Instruction := ⟨"r1", "Setup", "t1"⟩

theorem charToNat_inj {a b : Char} (h : a.toNat = b.toNat) : a = b :=
  Char.ext (UInt32.ext h)

theorem memLt_irrefl (l : List Char) : memLt l l = false := by
  induction l with
  | nil => rfl
  | cons a as ih => simpa [memLt] using ih

theorem memLt_trans :
    ∀ {a b c : List Char}, memLt a b = true → memLt b c = true → memLt a c = true
  | [], _ :: _, _ :: _, _, _ => rfl
  | [], [], _, h, _ => by cases h
  | [], _ :: _, [], _, h => by cases h
  | _ :: _, [], _, h, _ => by cases h
  | _ :: _, _ :: _, [], _, h => by cases h
  | a :: as, b :: bs, c :: cs, h1, h2 => by
      by_cases hab : a = b
      · subst hab
        by_cases hac : a = c
        · subst hac
          simp only [memLt, if_pos rfl] at h1 h2 ⊢
          exact memLt_trans h1 h2
        · simpa [memLt, hac] using h2
      · by_cases hbc : b = c
        · subst hbc
          simpa [memLt, hab] using h1
        · simp only [memLt, if_neg hab] at h1
          simp only [memLt, if_neg hbc] at h2
          have hac : a.toNat < c.toNat :=
            Nat.lt_trans (of_decide_eq_true h1) (of_decide_eq_true h2)
          have hne : a ≠ c := fun h => absurd (congrArg Char.toNat h) (Nat.ne_of_lt hac)
          simp [memLt, hne, hac]

theorem memLt_antisymm :
    ∀ {a b : List Char}, memLt a b = false → memLt b a = false → a = b
  | [], [], _, _ => rfl
  | [], _ :: _, h, _ => by cases h
  | _ :: _, [], _, h => by cases h
  | a :: as, b :: bs, h1, h2 => by
      by_cases hab : a = b
      · subst hab
        simp only [memLt, if_pos rfl] at h1 h2
        exact congrArg (a :: ·) (memLt_antisymm h1 h2)
      · exfalso
        simp only [memLt, if_neg hab] at h1
        simp only [memLt, if_neg (Ne.symm hab)] at h2
        have h1n : ¬ a.toNat < b.toNat := of_decide_eq_false h1
        have h2n : ¬ b.toNat < a.toNat := of_decide_eq_false h2
        exact hab (charToNat_inj (Nat.le_antisymm (Nat.not_lt.mp h2n) (Nat.not_lt.mp h1n)))

theorem portLt_irrefl (m : Nat) : portLt m m = false :=
  memLt_irrefl _

theorem portLt_trans {a b c : Nat} (h1 : portLt a b = true) (h2 : portLt b c = true) :
    portLt a c = true :=
  memLt_trans h1 h2

theorem portLt_asymm {a b : Nat} (h : portLt a b = true) : portLt b a = false := by
  cases hba : portLt b a with
  | false => rfl
  | true => exact absurd (portLt_trans h hba) (by simp [portLt_irrefl])

theorem portLt_repr_eq {a b : Nat} (h1 : portLt a b = false) (h2 : portLt b a = false) :
    (Nat.repr a).data = (Nat.repr b).data :=
  memLt_antisymm h1 h2

theorem pickMinAux_cons (m y : Nat) (ys : List Nat) :
    pickMinAux m (y :: ys) = pickMinAux (if portLt y m then y else m) ys := rfl

theorem pickMinAux_mem : ∀ (l : List Nat) (m : Nat),
    pickMinAux m l = m ∨ pickMinAux m l ∈ l
  | [], _ => Or.inl rfl
  | y :: ys, m => by
      rw [pickMinAux_cons]
      by_cases hym : portLt y m = true
      · rw [if_pos hym]
        rcases pickMinAux_mem ys y with h | h
        · exact Or.inr (by rw [h]; exact List.mem_cons_self y ys)
        · exact Or.inr (List.mem_cons_of_mem y h)
      · rw [if_neg hym]
        rcases pickMinAux_mem ys m with h | h
        · exact Or.inl h
        · exact Or.inr (List.mem_cons_of_mem y h)

theorem pickMinAux_min : ∀ (l : List Nat) (m x : Nat), (x = m ∨ x ∈ l) →
    portLt x (pickMinAux m l) = false
  | [], _, x, hx => by
      rcases hx with h | h
      · rw [h]; exact portLt_irrefl _
      · cases h
  | y :: ys, m, x, hx => by
      rw [pickMinAux_cons]
      by_cases hym : portLt y m = true
      · rw [if_pos hym]
        rcases hx with h | hx
        · -- x is the old accumulator m, and y is strictly below it
          rw [h]
          cases hmr : portLt m (pickMinAux y ys) with
          | false => rfl
          | true =>
              have h1 : portLt y (pickMinAux y ys) = false :=
                pickMinAux_min ys y y (Or.inl rfl)
              have h2 : portLt y (pickMinAux y ys) = true := portLt_trans hym hmr
              rw [h1] at h2; cases h2
        · rcases List.mem_cons.mp hx with h | hx
          · rw [h]; exact pickMinAux_min ys y y (Or.inl rfl)
          · exact pickMinAux_min ys y x (Or.inr hx)
      · rw [if_neg hym]
        have hym2 : portLt y m = false := eq_false_of_ne_true hym
        rcases hx with h | hx
        · exact pickMinAux_min ys m x (Or.inl h)
        · rcases List.mem_cons.mp hx with h | hx
          · -- x = y, the skipped head, not below the old accumulator
            rw [h]
            by_cases hmy : portLt m y = true
            · cases hyr : portLt y (pickMinAux m ys) with
              | false => rfl
              | true =>
                  have h1 : portLt m (pickMinAux m ys) = false :=
                    pickMinAux_min ys m m (Or.inl rfl)
                  have h2 : portLt m (pickMinAux m ys) = true := portLt_trans hmy hyr
                  rw [h1] at h2; cases h2
            · have hmy2 : portLt m y = false := eq_false_of_ne_true hmy
              have hrepr : (Nat.repr y).data = (Nat.repr m).data :=
                portLt_repr_eq hym2 hmy2
              have hsw : portLt y (pickMinAux m ys) = portLt m (pickMinAux m ys) := by
                unfold portLt
                rw [hrepr]
              rw [hsw]
              exact pickMinAux_min ys m m (Or.inl rfl)
          · exact pickMinAux_min ys m x (Or.inr hx)

theorem zrangeHead_eq_none {l : List Nat} (h : l = []) : zrangeHead l = none := by
  rw [h]; rfl

theorem zrangeHead_isSome {l : List Nat} (h : l ≠ []) :
    ∃ p, zrangeHead l = some p := by
  cases l with
  | nil => exact absurd rfl h
  | cons a as => exact ⟨pickMinAux a as, rfl⟩

theorem zrangeHead_mem : ∀ {l : List Nat} {p : Nat}, zrangeHead l = some p → p ∈ l
  | [], _, h => by cases h
  | a :: as, p, h => by
      have hp : p = pickMinAux a as := (Option.some.injEq _ _).mp h.symm
      rcases pickMinAux_mem as a with h2 | h2
      · rw [hp, h2]; exact List.mem_cons_self _ _
      · rw [hp]; exact List.mem_cons_of_mem _ h2

theorem zrangeHead_min : ∀ {l : List Nat} {p : Nat}, zrangeHead l = some p →
    ∀ x ∈ l, portLt x p = false
  | [], _, h => by cases h
  | a :: as, p, h => by
      intro x hx
      have hp : p = pickMinAux a as := (Option.some.injEq _ _).mp h.symm
      rw [hp]
      rcases List.mem_cons.mp hx with h2 | h2
      · exact pickMinAux_min as a x (Or.inl h2)
      · exact pickMinAux_min as a x (Or.inr h2)

theorem mem_availablePorts {possible occupied : List Nat} {p : Nat}
    (h : p ∈ availablePorts possible occupied) : p ∈ possible ∧ p ∉ occupied := by
  have h2 := List.mem_filter.mp h
  exact ⟨h2.1, of_decide_eq_true h2.2⟩

theorem insert_erase_of_not_mem {l : List Nat} {p : Nat} (h : p ∉ l) :
    (l.insert p).erase p = l := by
  rw [List.insert_of_not_mem h, List.erase_cons_head]

theorem releasePort_bindings (st : Store) (p : Nat) :
    (releasePort st p).bindings = st.bindings := by
  unfold releasePort
  split <;> rfl

theorem releasePort_occupied_of_ne {st : Store} {p : Nat} (h : p ≠ 0) :
    (releasePort st p).occupied = st.occupied.erase p := by
  unfold releasePort
  rw [if_neg h]

theorem finish_one (env : Env) (replyTo : String) (rsp : Response) (st : Store)
    (calls : List ToolCall) (hp : env.publishDialFails = false) :
    finish env replyTo rsp st calls =
      ⟨[("landlord.response." ++ replyTo, rsp)], st, calls, false⟩ := by
  unfold finish dispatchResponse
  rw [hp]
  rfl

theorem boundary_one (env : Env) (replyTo m : String) (st : Store)
    (calls : List ToolCall) (hp : env.publishDialFails = false) :
    boundary env replyTo m st calls =
      ⟨[("landlord.response." ++ replyTo, .plain ⟨"", "ERROR", m⟩)], st, calls, false⟩ := by
  unfold boundary dispatchResponse
  rw [hp]
  rfl

theorem handleInstruction_invalid (env : Env) (st : Store) (instr : Instruction)
    (hid : idOk instr.Id = false) :
    handleInstruction env st instr = boundary env instr.ReplyTo "Invalid id." st [] := by
  unfold handleInstruction
  rw [if_pos hid]

theorem handleInstruction_op_setup (env : Env) (st : Store) (instr : Instruction)
    (hid : idOk instr.Id = true) (hop : instr.Op = "Setup") :
    handleInstruction env st instr =
      handleSetupResult env instr.ReplyTo instr.Id (setupInstance env st instr.Id) := by
  unfold handleInstruction
  rw [hid, hop]
  simp

theorem handleInstruction_op_delete (env : Env) (st : Store) (instr : Instruction)
    (hid : idOk instr.Id = true) (hop : instr.Op = "Delete") :
    handleInstruction env st instr =
      handleDeleteResult env instr.ReplyTo instr.Id st (deleteInstance env instr.Id) := by
  unfold handleInstruction
  rw [hid, hop]
  simp

theorem handleInstruction_op_getport (env : Env) (st : Store) (instr : Instruction)
    (hid : idOk instr.Id = true) (hop : instr.Op = "GetPort") :
    handleInstruction env st instr =
      handleGetPortResult env instr.ReplyTo instr.Id st (getExistingPort env st instr.Id) := by
  unfold handleInstruction
  rw [hid, hop]
  simp

theorem setupInstance_dialFail (env : Env) (st : Store) (id : String)
    (hd : env.handlerDialFails = true) :
    setupInstance env st id = ⟨.error env.dialErrMsg, st, []⟩ := by
  unfold setupInstance
  rw [hd]
  rfl

theorem deleteInstance_dialFail (env : Env) (id : String)
    (hd : env.handlerDialFails = true) :
    deleteInstance env id = ⟨.error env.dialErrMsg, []⟩ := by
  unfold deleteInstance
  rw [hd]
  rfl

theorem getExistingPort_dialFail (env : Env) (st : Store) (id : String)
    (hd : env.handlerDialFails = true) :
    getExistingPort env st id = .error env.dialErrMsg := by
  unfold getExistingPort
  rw [hd]
  rfl

set_option maxRecDepth 8000 in
theorem exitStatusMsg_ne_nine :
    ∀ n, n < 256 → n ≠ 9 → "exit status " ++ Nat.repr n ≠ "exit status 9" := by
  decide

/-- Claim C1.  The claim states that a successful Setup (tool exits 0
after a port was allocated) records the id-to-port binding and adds the
id to the tenant set, so that a later GetPort returns the assigned port.
The code does neither: on the fresh store, Setup for t1 publishes OK with
port 6381, yet afterwards the registry still has no binding for t1 and
the tenant set is untouched, so the subsequent GetPort publishes an
ERROR response instead of the assigned port. -/
theorem claim1_setup_never_binds :
    (handleInstruction envToolOk stFresh instrSetupT1).published =
      [("landlord.response.r1", .setup ⟨"t1", "OK", "", 6381⟩)] ∧
    (handleInstruction envToolOk stFresh instrSetupT1).store.bindings "t1" = none ∧
    "t1" ∉ (handleInstruction envToolOk stFresh instrSetupT1).store.tenants ∧
    (handleInstruction envToolOk
        (handleInstruction envToolOk stFresh instrSetupT1).store
        ⟨"r2", "GetPort", "t1"⟩).published =
      [("landlord.response.r2", .setup ⟨"t1", "ERROR", getPortFailMsg "t1", 0⟩)] :=
  ⟨rfl, rfl, by decide, rfl⟩

/-- Claim C2.  The claim states that on an exhausted pool the allocation
returns the sentinel 0 as a normal value and the caller observes 0, not a
raised failure.  In the code the script's unconditional `SADD` of the nil
`ZRANGE` result aborts the transaction with the Lua type error before the
sentinel branch is reached, `getFreePort` panics on that script error,
and the caller (`setupInstance`) observes the recovered panic message,
never the value 0. -/
theorem claim2_exhaustion_errors :
    getFreePortScript [6381] [6381] = .error luaTypeErrMsg ∧
    (setupInstance envToolOk stExhausted "t1").result =
      .ok (.error (fetchFreePortFailMsg luaTypeErrMsg)) ∧
    (setupInstance envToolOk stExhausted "t1").calls = [] :=
  ⟨rfl, rfl, rfl⟩

/-- Claim C3, counterexample.  The claim states that on a non-empty
`available` set the allocation returns the numerically minimum member.
With `possible = {999, 1000}` and nothing occupied the script returns
1000, although 999 is a member and numerically smaller: `ZRANGE` ranks
equal-score members by their strings, and "1000" precedes "999". -/
theorem claim3_counterexample :
    getFreePortScript [999, 1000] [] = .ok (1000, [1000]) ∧
    999 ∈ availablePorts [999, 1000] [] ∧ 999 < 1000 :=
  ⟨rfl, by decide, by decide⟩

/-- Claim C3, amended.  On a non-empty `available = possible \ occupied`
the allocation script deterministically returns the member whose decimal
representation is smallest in byte-wise lexicographic order (which is the
numeric minimum whenever all members' numerals have equal length), and
marks that same port occupied in the same transaction. -/
theorem claim3_amended (possible occupied : List Nat)
    (h : availablePorts possible occupied ≠ []) :
    ∃ p, getFreePortScript possible occupied = .ok (p, occupied.insert p) ∧
      p ∈ availablePorts possible occupied ∧
      ∀ x ∈ availablePorts possible occupied, portLt x p = false := by
  obtain ⟨p, hz⟩ := zrangeHead_isSome h
  refine ⟨p, ?_, zrangeHead_mem hz, zrangeHead_min hz⟩
  unfold getFreePortScript
  rw [hz]

/-- Witness for claim C3's amended theorem at `possible = [999, 1000]`,
`occupied = []`. -/
theorem claim3_amended_witness :
    ∃ p, getFreePortScript [999, 1000] [] = .ok (p, ([] : List Nat).insert p) ∧
      p ∈ availablePorts [999, 1000] [] ∧
      ∀ x ∈ availablePorts [999, 1000] [], portLt x p = false :=
  claim3_amended [999, 1000] [] (by decide)

/-- Claim C4.  When the provisioning tool exits with code 7 ("already
exists") during Setup, the speculatively allocated port is released, the
registry's existing binding for the id is looked up and returned, and the
operation is treated as success: the published response is OK with the
registry's port, and the occupied set ends exactly where it started.  The
hypotheses assert a reachable pool state (0 is never a possible port, the
pool is not exhausted), a working store, a registry binding for the id,
and a tool that always reports "already exists". -/
theorem claim4_already_exists_fallback (env : Env) (st : Store) (instr : Instruction)
    (q : Nat) (hop : instr.Op = "Setup") (hid : idOk instr.Id = true)
    (hd : env.handlerDialFails = false) (hp : env.publishDialFails = false)
    (htool : ∀ args, env.tool "setup" instr.Id args = .exitErr 7)
    (hbind : st.bindings instr.Id = some q) (h0 : 0 ∉ st.possible)
    (hav : availablePorts st.possible st.occupied ≠ []) :
    (handleInstruction env st instr).published =
      [("landlord.response." ++ instr.ReplyTo, .setup ⟨instr.Id, "OK", "", q⟩)] ∧
    (handleInstruction env st instr).store.occupied = st.occupied ∧
    (handleInstruction env st instr).crashed = false := by
  obtain ⟨p, hz⟩ := zrangeHead_isSome hav
  obtain ⟨hpPoss, hpOcc⟩ := mem_availablePorts (zrangeHead_mem hz)
  have hp0 : p ≠ 0 := fun h => h0 (h ▸ hpPoss)
  have hscript : getFreePortScript st.possible st.occupied =
      .ok (p, st.occupied.insert p) := by
    unfold getFreePortScript
    rw [hz]
  have htm : toolErrMsg (env.tool "setup" instr.Id [Nat.repr p]) =
      some "exit status 7" := by
    rw [htool]
    rfl
  have hb1 : ({ st with occupied := st.occupied.insert p } : Store).bindings =
      st.bindings := rfl
  have hgp : getPort (releasePort { st with occupied := st.occupied.insert p } p)
      instr.Id = .ok q := by
    unfold getPort
    rw [releasePort_bindings, hb1, hbind]
  have hsetup : setupInstance env st instr.Id =
      ⟨.ok (.ok q), releasePort { st with occupied := st.occupied.insert p } p,
        [("setup", instr.Id, [Nat.repr p])]⟩ := by
    unfold setupInstance
    rw [hd, hscript]
    show (match toolErrMsg (env.tool "setup" instr.Id [Nat.repr p]) with
      | none => (⟨.ok (.ok p), { st with occupied := st.occupied.insert p },
          [("setup", instr.Id, [Nat.repr p])]⟩ : SetupOut)
      | some m =>
          if (parseManagerError m).ExitCode = 7 then
            match getPort (releasePort { st with occupied := st.occupied.insert p } p)
                instr.Id with
            | .ok q2 => ⟨.ok (.ok q2),
                releasePort { st with occupied := st.occupied.insert p } p,
                [("setup", instr.Id, [Nat.repr p])]⟩
            | .error pm => ⟨.ok (.error pm),
                releasePort (releasePort { st with occupied := st.occupied.insert p } p) p,
                [("setup", instr.Id, [Nat.repr p])]⟩
          else if p = 0 then
            ⟨.ok (.error noFreePortsMsg), { st with occupied := st.occupied.insert p },
              [("setup", instr.Id, [Nat.repr p])]⟩
          else
            ⟨.ok (.error (parseManagerError m).Message),
              releasePort { st with occupied := st.occupied.insert p } p,
              [("setup", instr.Id, [Nat.repr p])]⟩) = _
    rw [htm]
    show (if (parseManagerError "exit status 7").ExitCode = 7 then _ else _) = _
    rw [if_pos (show (parseManagerError "exit status 7").ExitCode = 7 from rfl)]
    rw [hgp]
  have hfull : handleInstruction env st instr =
      ⟨[("landlord.response." ++ instr.ReplyTo, .setup ⟨instr.Id, "OK", "", q⟩)],
        releasePort { st with occupied := st.occupied.insert p } p,
        [("setup", instr.Id, [Nat.repr p])], false⟩ := by
    rw [handleInstruction_op_setup env st instr hid hop, hsetup]
    exact finish_one env instr.ReplyTo _ _ _ hp
  refine ⟨by rw [hfull], ?_, by rw [hfull]⟩
  rw [hfull]
  show (releasePort { st with occupied := st.occupied.insert p } p).occupied =
    st.occupied
  rw [releasePort_occupied_of_ne hp0]
  exact insert_erase_of_not_mem hpOcc

/-- Witness for claim C4 in the spec's fallback scenario: registry
pre-seeded with t1 bound to 7001, a tool stub that always exits 7;
Setup("t1") answers OK with port 7001 and leaves the occupied set as it
was. -/
theorem claim4_witness :
    (handleInstruction envTool7 stSeeded instrSetupT1).published =
      [("landlord.response.r1", .setup ⟨"t1", "OK", "", 7001⟩)] ∧
    (handleInstruction envTool7 stSeeded instrSetupT1).store.occupied =
      stSeeded.occupied ∧
    (handleInstruction envTool7 stSeeded instrSetupT1).crashed = false :=
  claim4_already_exists_fallback envTool7 stSeeded instrSetupT1 7001 rfl (by decide)
    rfl rfl (fun _ => rfl) rfl (by decide) (by decide)

/-- Claim C5.  The claim states that a Setup in which no port was
obtained (allocation yielded the sentinel 0) and whose tool call fails
with a code other than 7 surfaces the distinct "no free ports" message.
In the code that scenario cannot arise: on an exhausted pool the
allocation script aborts, the tool is never invoked (no calls are
recorded), and the surfaced message is the store-script failure text, not
`noFreePortsMsg` — the "No free ports" branch of `setupInstance` is
unreachable. -/
theorem claim5_no_free_ports_message_dead :
    (handleInstruction envTool1 stExhausted instrSetupT1).published =
      [("landlord.response.r1",
        .setup ⟨"t1", "ERROR", fetchFreePortFailMsg luaTypeErrMsg, 0⟩)] ∧
    (handleInstruction envTool1 stExhausted instrSetupT1).calls = [] ∧
    fetchFreePortFailMsg luaTypeErrMsg ≠ noFreePortsMsg :=
  ⟨rfl, rfl, by decide⟩

/-- Claim C6, counterexample.  The claim states that any failure inside a
handler is converted into an ERROR response published to the reply
destination and that no failure terminates the service process.  When the
store client fails while publishing (the `dial` inside
`dispatchResponse`), the boundary recovery's own publish panics in turn;
the second panic is unrecovered, nothing is published, and the goroutine
death kills the process. -/
theorem claim6_counterexample :
    (handleInstruction envPubFail stFresh instrSetupT1).crashed = true ∧
    (handleInstruction envPubFail stFresh instrSetupT1).published = [] :=
  ⟨rfl, rfl⟩

/-- Claim C6, amended.  Provided the store connection used for publishing
responses succeeds, every decoded instruction — whatever the store, tool
behaviour, or failure inside the handler — ends with no panic escaping
the handler and exactly one response published, on the channel derived
from `ReplyTo`; if the publishing connection fails, the process dies
instead (see the counterexample). -/
theorem claim6_amended (env : Env) (st : Store) (instr : Instruction)
    (hp : env.publishDialFails = false) :
    (handleInstruction env st instr).crashed = false ∧
    ∃ rsp, (handleInstruction env st instr).published =
      [("landlord.response." ++ instr.ReplyTo, rsp)] := by
  by_cases hid : idOk instr.Id = false
  · rw [handleInstruction_invalid env st instr hid, boundary_one env _ _ _ _ hp]
    exact ⟨rfl, _, rfl⟩
  · have hid2 : idOk instr.Id = true := by
      cases h : idOk instr.Id with
      | false => exact absurd h hid
      | true => rfl
    by_cases hop1 : instr.Op = "Setup"
    · rw [handleInstruction_op_setup env st instr hid2 hop1]
      rcases hres : (setupInstance env st instr.Id).result with pm | inner
      · rw [show handleSetupResult env instr.ReplyTo instr.Id (setupInstance env st instr.Id) =
            boundary env instr.ReplyTo pm (setupInstance env st instr.Id).store
              (setupInstance env st instr.Id).calls by
          unfold handleSetupResult; rw [hres]]
        rw [boundary_one env _ _ _ _ hp]
        exact ⟨rfl, _, rfl⟩
      · rcases inner with em | p
        · rw [show handleSetupResult env instr.ReplyTo instr.Id (setupInstance env st instr.Id) =
              finish env instr.ReplyTo (.setup ⟨instr.Id, "ERROR", em, 0⟩)
                (setupInstance env st instr.Id).store (setupInstance env st instr.Id).calls by
            unfold handleSetupResult; rw [hres]]
          rw [finish_one env _ _ _ _ hp]
          exact ⟨rfl, _, rfl⟩
        · rw [show handleSetupResult env instr.ReplyTo instr.Id (setupInstance env st instr.Id) =
              finish env instr.ReplyTo (.setup ⟨instr.Id, "OK", "", p⟩)
                (setupInstance env st instr.Id).store (setupInstance env st instr.Id).calls by
            unfold handleSetupResult; rw [hres]]
          rw [finish_one env _ _ _ _ hp]
          exact ⟨rfl, _, rfl⟩
    · by_cases hop2 : instr.Op = "Delete"
      · rw [handleInstruction_op_delete env st instr hid2 hop2]
        rcases hres : (deleteInstance env instr.Id).result with pm | oerr
        · rw [show handleDeleteResult env instr.ReplyTo instr.Id st (deleteInstance env instr.Id) =
              boundary env instr.ReplyTo pm st (deleteInstance env instr.Id).calls by
            unfold handleDeleteResult; rw [hres]]
          rw [boundary_one env _ _ _ _ hp]
          exact ⟨rfl, _, rfl⟩
        · rcases oerr with _ | m
          · rw [show handleDeleteResult env instr.ReplyTo instr.Id st (deleteInstance env instr.Id) =
                finish env instr.ReplyTo (.plain ⟨instr.Id, "OK", ""⟩) st
                  (deleteInstance env instr.Id).calls by
              unfold handleDeleteResult; rw [hres]]
            rw [finish_one env _ _ _ _ hp]
            exact ⟨rfl, _, rfl⟩
          · rw [show handleDeleteResult env instr.ReplyTo instr.Id st (deleteInstance env instr.Id) =
                finish env instr.ReplyTo (.plain ⟨instr.Id, "ERROR", m⟩) st
                  (deleteInstance env instr.Id).calls by
              unfold handleDeleteResult; rw [hres]]
            rw [finish_one env _ _ _ _ hp]
            exact ⟨rfl, _, rfl⟩
      · by_cases hop3 : instr.Op = "GetPort"
        · rw [handleInstruction_op_getport env st instr hid2 hop3]
          rcases hres : getExistingPort env st instr.Id with pm | inner
          · rw [show handleGetPortResult env instr.ReplyTo instr.Id st (.error pm) =
                boundary env instr.ReplyTo pm st [] from rfl]
            rw [boundary_one env _ _ _ _ hp]
            exact ⟨rfl, _, rfl⟩
          · rcases inner with em | p2
            · rw [show handleGetPortResult env instr.ReplyTo instr.Id st
                    (.ok (.error em)) =
                  finish env instr.ReplyTo (.setup ⟨instr.Id, "ERROR", em, 0⟩) st []
                  from rfl]
              rw [finish_one env _ _ _ _ hp]
              exact ⟨rfl, _, rfl⟩
            · rw [show handleGetPortResult env instr.ReplyTo instr.Id st
                    (.ok (.ok p2)) =
                  finish env instr.ReplyTo (.setup ⟨instr.Id, "OK", "", p2⟩) st []
                  from rfl]
              rw [finish_one env _ _ _ _ hp]
              exact ⟨rfl, _, rfl⟩
        · rw [show handleInstruction env st instr =
              finish env instr.ReplyTo (.plain ⟨"", "ERROR", "Unknown operation."⟩) st [] by
            unfold handleInstruction
            rw [hid2]
            rw [if_neg (by simp), if_neg hop1, if_neg hop2, if_neg hop3]]
          rw [finish_one env _ _ _ _ hp]
          exact ⟨rfl, _, rfl⟩

/-- Witness for claim C6's amended theorem: a successful Setup publishes
exactly one response on the derived channel and nothing crashes. -/
theorem claim6_amended_witness :
    (handleInstruction envToolOk stFresh instrSetupT1).crashed = false ∧
    ∃ rsp, (handleInstruction envToolOk stFresh instrSetupT1).published =
      [("landlord.response.r1", rsp)] :=
  claim6_amended envToolOk stFresh instrSetupT1 rfl

/-- Claim C7.  An instruction whose id fails the character-set check is
answered with an ERROR `PlainResponse` before any pool or registry call:
the handler publishes exactly the invalid-id error, leaves the store
untouched, and invokes no tool.  The statement is universally quantified
over the store with a store-free right-hand side, so the outcome reads
nothing from pool or registry either. -/
theorem claim7_invalid_id_short_circuit (env : Env) (st : Store) (instr : Instruction)
    (hid : idOk instr.Id = false) (hp : env.publishDialFails = false) :
    (handleInstruction env st instr).published =
      [("landlord.response." ++ instr.ReplyTo, .plain ⟨"", "ERROR", "Invalid id."⟩)] ∧
    (handleInstruction env st instr).store = st ∧
    (handleInstruction env st instr).calls = [] ∧
    (handleInstruction env st instr).crashed = false := by
  rw [handleInstruction_invalid env st instr hid, boundary_one env _ _ _ _ hp]
  exact ⟨rfl, rfl, rfl, rfl⟩

/-- Witness for claim C7 at the spec's test input `Id = "bad id!"`. -/
theorem claim7_witness :
    (handleInstruction envToolOk stFresh ⟨"r1", "Setup", "bad id!"⟩).published =
      [("landlord.response.r1", .plain ⟨"", "ERROR", "Invalid id."⟩)] ∧
    (handleInstruction envToolOk stFresh ⟨"r1", "Setup", "bad id!"⟩).store = stFresh ∧
    (handleInstruction envToolOk stFresh ⟨"r1", "Setup", "bad id!"⟩).calls = [] ∧
    (handleInstruction envToolOk stFresh ⟨"r1", "Setup", "bad id!"⟩).crashed = false :=
  claim7_invalid_id_short_circuit envToolOk stFresh ⟨"r1", "Setup", "bad id!"⟩
    (by decide) rfl

/-- Claim C8.  Delete maps tool exit code 9 to the specific error
"Instance does not exist.", surfaces any other non-zero exit status
verbatim as the Go text "exit status n", and answers OK when the tool
exits 0.  Exit statuses are single bytes, hence the bound `n < 256`. -/
theorem claim8_delete_exit_codes (env : Env) (st : Store) (instr : Instruction)
    (hop : instr.Op = "Delete") (hid : idOk instr.Id = true)
    (hd : env.handlerDialFails = false) (hp : env.publishDialFails = false) :
    (env.tool "delete" instr.Id [] = .exitErr 9 →
      (handleInstruction env st instr).published =
        [("landlord.response." ++ instr.ReplyTo,
          .plain ⟨instr.Id, "ERROR", "Instance does not exist."⟩)]) ∧
    (∀ n, 0 < n → n < 256 → n ≠ 9 → env.tool "delete" instr.Id [] = .exitErr n →
      (handleInstruction env st instr).published =
        [("landlord.response." ++ instr.ReplyTo,
          .plain ⟨instr.Id, "ERROR", "exit status " ++ Nat.repr n⟩)]) ∧
    (env.tool "delete" instr.Id [] = .success →
      (handleInstruction env st instr).published =
        [("landlord.response." ++ instr.ReplyTo, .plain ⟨instr.Id, "OK", ""⟩)]) := by
  refine ⟨?_, ?_, ?_⟩
  · intro htool
    have hdel : deleteInstance env instr.Id =
        ⟨.ok (some "Instance does not exist."), [("delete", instr.Id, [])]⟩ := by
      unfold deleteInstance
      rw [hd, htool]
      rfl
    rw [handleInstruction_op_delete env st instr hid hop, hdel]
    rw [show handleDeleteResult env instr.ReplyTo instr.Id st
          (⟨.ok (some "Instance does not exist."), [("delete", instr.Id, [])]⟩ : DeleteOut) =
        finish env instr.ReplyTo (.plain ⟨instr.Id, "ERROR", "Instance does not exist."⟩)
          st [("delete", instr.Id, [])] from rfl]
    rw [finish_one env _ _ _ _ hp]
  · intro n hn0 hn256 hn9 htool
    have hneq : ("exit status " ++ Nat.repr n) ≠ "exit status 9" :=
      exitStatusMsg_ne_nine n hn256 hn9
    have hdel : deleteInstance env instr.Id =
        ⟨.ok (some ("exit status " ++ Nat.repr n)), [("delete", instr.Id, [])]⟩ := by
      unfold deleteInstance
      rw [hd, htool]
      show (⟨.ok (some (if ("exit status " ++ Nat.repr n) = "exit status 9"
          then "Instance does not exist." else "exit status " ++ Nat.repr n)),
        [("delete", instr.Id, [])]⟩ : DeleteOut) = _
      rw [if_neg hneq]
    rw [handleInstruction_op_delete env st instr hid hop, hdel]
    rw [show handleDeleteResult env instr.ReplyTo instr.Id st
          (⟨.ok (some ("exit status " ++ Nat.repr n)),
            [("delete", instr.Id, [])]⟩ : DeleteOut) =
        finish env instr.ReplyTo (.plain ⟨instr.Id, "ERROR", "exit status " ++ Nat.repr n⟩)
          st [("delete", instr.Id, [])] from rfl]
    rw [finish_one env _ _ _ _ hp]
  · intro htool
    have hdel : deleteInstance env instr.Id =
        ⟨.ok none, [("delete", instr.Id, [])]⟩ := by
      unfold deleteInstance
      rw [hd, htool]
      rfl
    rw [handleInstruction_op_delete env st instr hid hop, hdel]
    rw [show handleDeleteResult env instr.ReplyTo instr.Id st
          (⟨.ok none, [("delete", instr.Id, [])]⟩ : DeleteOut) =
        finish env instr.ReplyTo (.plain ⟨instr.Id, "OK", ""⟩)
          st [("delete", instr.Id, [])] from rfl]
    rw [finish_one env _ _ _ _ hp]

/-- Witness for claim C8, first case: a tool stub exiting 9 makes Delete
answer with the specific "Instance does not exist." error. -/
theorem claim8_witness :
    (handleInstruction envTool9 stFresh ⟨"r1", "Delete", "t1"⟩).published =
      [("landlord.response.r1", .plain ⟨"t1", "ERROR", "Instance does not exist."⟩)] :=
  (claim8_delete_exit_codes envTool9 stFresh ⟨"r1", "Delete", "t1"⟩ rfl (by decide)
    rfl rfl).1 rfl

/-- Claim C9, counterexample.  The implicit claim states that on an
exhausted pool the tool is nevertheless invoked with port 0 and a
successful invocation makes Setup publish OK with port 0.  With a tool
stub that always succeeds and an exhausted pool, the code invokes the
tool zero times and does not publish that OK response. -/
theorem claim9_counterexample :
    (handleInstruction envToolOk stExhausted instrSetupT1).calls = [] ∧
    (handleInstruction envToolOk stExhausted instrSetupT1).published ≠
      [("landlord.response.r1", .setup ⟨"t1", "OK", "", 0⟩)] :=
  ⟨rfl, by decide⟩

/-- Claim C9, amended.  On an exhausted pool the allocation script fails
before the tool can be invoked: Setup makes no tool call and publishes an
ERROR `SetupResponse` carrying the store-script failure text (with the
port at its zero value), regardless of the tool's behaviour. -/
theorem claim9_amended (env : Env) (st : Store) (instr : Instruction)
    (hid : idOk instr.Id = true) (hop : instr.Op = "Setup")
    (hd : env.handlerDialFails = false) (hp : env.publishDialFails = false)
    (hex : availablePorts st.possible st.occupied = []) :
    (handleInstruction env st instr).calls = [] ∧
    (handleInstruction env st instr).published =
      [("landlord.response." ++ instr.ReplyTo,
        .setup ⟨instr.Id, "ERROR", fetchFreePortFailMsg luaTypeErrMsg, 0⟩)] ∧
    (handleInstruction env st instr).crashed = false := by
  have hscript : getFreePortScript st.possible st.occupied = .error luaTypeErrMsg := by
    unfold getFreePortScript
    rw [zrangeHead_eq_none hex]
  have hsetup : setupInstance env st instr.Id =
      ⟨.ok (.error (fetchFreePortFailMsg luaTypeErrMsg)), st, []⟩ := by
    unfold setupInstance
    rw [hd, hscript]
    rfl
  have hfull : handleInstruction env st instr =
      ⟨[("landlord.response." ++ instr.ReplyTo,
          .setup ⟨instr.Id, "ERROR", fetchFreePortFailMsg luaTypeErrMsg, 0⟩)],
        st, [], false⟩ := by
    rw [handleInstruction_op_setup env st instr hid hop, hsetup]
    exact finish_one env instr.ReplyTo _ _ _ hp
  exact ⟨by rw [hfull], by rw [hfull], by rw [hfull]⟩

/-- Witness for claim C9's amended theorem on the exhausted store with an
always-succeeding tool stub. -/
theorem claim9_amended_witness :
    (handleInstruction envToolOk stExhausted instrSetupT1).calls = [] ∧
    (handleInstruction envToolOk stExhausted instrSetupT1).published =
      [("landlord.response.r1",
        .setup ⟨"t1", "ERROR", fetchFreePortFailMsg luaTypeErrMsg, 0⟩)] ∧
    (handleInstruction envToolOk stExhausted instrSetupT1).crashed = false :=
  claim9_amended envToolOk stExhausted instrSetupT1 (by decide) rfl rfl rfl rfl

/-- Claim C10.  Every ERROR response produced by the handler-boundary
recovery — for an invalid id, or for a panic escaping a handler body
(here: the handler's store dial failing, for each of the three known
operations) — is a `PlainResponse` whose `Id` field is the empty string:
the instruction's id is not copied into it. -/
theorem claim10_boundary_empty_id (env : Env) (st : Store) (instr : Instruction)
    (hp : env.publishDialFails = false) :
    (idOk instr.Id = false →
      (handleInstruction env st instr).published =
        [("landlord.response." ++ instr.ReplyTo, .plain ⟨"", "ERROR", "Invalid id."⟩)]) ∧
    (idOk instr.Id = true → env.handlerDialFails = true →
      (instr.Op = "Setup" ∨ instr.Op = "Delete" ∨ instr.Op = "GetPort") →
      (handleInstruction env st instr).published =
        [("landlord.response." ++ instr.ReplyTo,
          .plain ⟨"", "ERROR", env.dialErrMsg⟩)]) := by
  constructor
  · intro hid
    rw [handleInstruction_invalid env st instr hid, boundary_one env _ _ _ _ hp]
  · intro hid hdf hops
    rcases hops with hop | hop | hop
    · rw [handleInstruction_op_setup env st instr hid hop,
        setupInstance_dialFail env st instr.Id hdf]
      rw [show handleSetupResult env instr.ReplyTo instr.Id
            (⟨.error env.dialErrMsg, st, []⟩ : SetupOut) =
          boundary env instr.ReplyTo env.dialErrMsg st [] from rfl]
      rw [boundary_one env _ _ _ _ hp]
    · rw [handleInstruction_op_delete env st instr hid hop,
        deleteInstance_dialFail env instr.Id hdf]
      rw [show handleDeleteResult env instr.ReplyTo instr.Id st
            (⟨.error env.dialErrMsg, []⟩ : DeleteOut) =
          boundary env instr.ReplyTo env.dialErrMsg st [] from rfl]
      rw [boundary_one env _ _ _ _ hp]
    · rw [handleInstruction_op_getport env st instr hid hop,
        getExistingPort_dialFail env st instr.Id hdf]
      rw [show handleGetPortResult env instr.ReplyTo instr.Id st
            (.error env.dialErrMsg) =
          boundary env instr.ReplyTo env.dialErrMsg st [] from rfl]
      rw [boundary_one env _ _ _ _ hp]

/-- Witness for claim C10, first case, at the invalid id "bad id!". -/
theorem claim10_witness :
    (handleInstruction envToolOk stFresh ⟨"r2", "Setup", "bad id!"⟩).published =
      [("landlord.response.r2", .plain ⟨"", "ERROR", "Invalid id."⟩)] :=
  (claim10_boundary_empty_id envToolOk stFresh ⟨"r2", "Setup", "bad id!"⟩ rfl).1
    (by decide)

end Landlord
